import Mathlib

/-!
Verification of the register-mapped device control layer of the
Temperature-Controller API.

The Python routes are shallowly embedded as Lean functions over an explicit
device model: the controller is a file of 16-bit registers (`Nat → Nat`,
each value reduced mod 2^16 at the transport boundary), and every register
transaction a route issues is recorded, in order, in a trace.  Request
parameters (device-id resolution, JSON body fields, the `unit` query
parameter, the settings-mirror `currentMode` lookup) are passed as explicit
arguments.  Python-specific numeric behaviour (`int()` truncation toward
zero, `round()` half-to-even, `str.upper()`) is modelled by dedicated
helpers.  Exact rationals stand in for Python floats: all quantities
involved are small decimals, where binary-float rounding does not change
any comparison or rounding result asserted here.
-/

/-- A single field-bus register transaction, as issued by a route:
a read of a register address, or a write of a raw 16-bit value. -/
inductive Txn
  | read (addr : Nat)
  | write (addr : Nat) (raw : Nat)
deriving DecidableEq, Repr

/-- A device session: the register file of the controller plus the ordered
list of register transactions issued so far during the current request. -/
structure Sess where
  regs : Nat → Nat
  trace : List Txn

/-- Summary of a route invocation: an HTTP response (status code plus a tag
identifying which response was produced), or a Python exception that escaped
the handler. -/
inductive Outcome
  | resp (code : Nat) (tag : String)
  | uncaught (exn : String)
deriving DecidableEq, Repr

/-- Python 3 `round(x)`: round half to even. -/
def pyRound (q : ℚ) : Int :=
  if q - ⌊q⌋ < 1/2 then ⌊q⌋
  else if 1/2 < q - ⌊q⌋ then ⌊q⌋ + 1
  else if 2 ∣ ⌊q⌋ then ⌊q⌋ else ⌊q⌋ + 1

/-- Python `round(x, 1)`: round to one decimal digit, half to even. -/
def pyRound1 (q : ℚ) : ℚ := (pyRound (q * 10) : ℚ) / 10

/-- Python `int(x)` on a number: truncation toward zero. -/
def pyTrunc (q : ℚ) : Int := if 0 ≤ q then ⌊q⌋ else -⌊-q⌋

/-- Python `str.upper()` (the strings used here are ASCII). -/
def pyUpper (s : String) : String := ⟨s.data.map Char.toUpper⟩

/-- `celsius_to_fahrenheit` from `src/utils/helpers.py`:
`fahrenheit = (celsius * 1.8) + 32; return math.ceil(fahrenheit)`. -/
def celsius_to_fahrenheit (celsius : ℚ) : Int := ⌈celsius * 1.8 + 32⌉

/-- `fahrenheit_to_celsius` from `src/utils/helpers.py`:
`celsius = (fahrenheit - 32) / 1.8; return round(celsius, 1)`. -/
def fahrenheit_to_celsius (fahrenheit : ℚ) : ℚ := pyRound1 ((fahrenheit - 32) / 1.8)

/-- Twos-complement interpretation of a 16-bit raw register value, as done
by the transport for `signed=True` reads. -/
def signedVal (r : Nat) : Int := if r < 32768 then (r : Int) else (r : Int) - 65536

/-- Scaled value delivered by `read_register(addr, number_of_decimals=1,
functioncode=3, signed=True)` for a raw register content `r`. -/
def decodeS1 (r : Nat) : ℚ := (signedVal (r % 65536) : ℚ) / 10

/-- Raw 16-bit content stored by `write_register(addr, v,
number_of_decimals=1, functioncode=6, signed=True)`: the scaled value is
multiplied back up, rounded, and encoded in twos complement. -/
def encodeS1 (v : ℚ) : Nat := ((pyRound (v * 10)) % 65536).toNat

/-- `instrument.read_register(addr, number_of_decimals=1, functioncode=3,
signed=True)`: returns the scaled signed value and records the read. -/
def Sess.readS1 (s : Sess) (addr : Nat) : ℚ × Sess :=
  (decodeS1 (s.regs addr), ⟨s.regs, s.trace ++ [Txn.read addr]⟩)

/-- `instrument.read_register(addr, number_of_decimals=0, functioncode=3,
signed=False)`: returns the raw 16-bit value and records the read. -/
def Sess.readU0 (s : Sess) (addr : Nat) : Nat × Sess :=
  (s.regs addr % 65536, ⟨s.regs, s.trace ++ [Txn.read addr]⟩)

/-- `instrument.write_register(addr, v, number_of_decimals=1, functioncode=6,
signed=True)`: stores the encoded raw value and records the write. -/
def Sess.writeS1 (s : Sess) (addr : Nat) (v : ℚ) : Sess :=
  ⟨fun a => if a = addr then encodeS1 v else s.regs a,
    s.trace ++ [Txn.write addr (encodeS1 v)]⟩

/-- `instrument.write_register(addr, v, number_of_decimals=0, functioncode=6,
signed=False)`: stores the raw value (reduced to 16 bits) and records the
write. -/
def Sess.writeU0 (s : Sess) (addr : Nat) (v : Nat) : Sess :=
  ⟨fun a => if a = addr then v % 65536 else s.regs a,
    s.trace ++ [Txn.write addr (v % 65536)]⟩

/-- `create_instrument` from `src/utils/helpers.py`, success path: configures
the transport and issues the liveness probe `client.read_register(199)`
before returning the handle. -/
def create_instrument (regs0 : Nat → Nat) : Sess :=
  (Sess.readU0 ⟨regs0, []⟩ 199).2

/-- Does a trace contain a write to `addr`? -/
def writesTo (t : List Txn) (addr : Nat) : Bool :=
  t.any fun tx => match tx with
    | Txn.write a _ => a = addr
    | Txn.read _ => false

/-- Does a trace touch `addr` at all (read or write)? -/
def touches (t : List Txn) (addr : Nat) : Bool :=
  t.any fun tx => match tx with
    | Txn.write a _ => a = addr
    | Txn.read a => a = addr

theorem pyRound_intCast (n : Int) : pyRound (n : ℚ) = n := by
  unfold pyRound
  rw [Int.floor_intCast]
  norm_num

theorem encodeS1_decodeS1 (r : Nat) (h : r < 65536) : encodeS1 (decodeS1 r) = r := by
  unfold encodeS1 decodeS1
  rw [Nat.mod_eq_of_lt h, div_mul_cancel₀ _ (by norm_num : (10:ℚ) ≠ 0), pyRound_intCast]
  unfold signedVal
  split_ifs with h1 <;> omega

/-- Claim C9: `celsius_to_fahrenheit` is exactly `ceil(c*1.8+32)` (rounding
toward positive infinity, so 5.0 gives 41 and 5.1 gives 42), and
`fahrenheit_to_celsius` is exactly `(f-32)/1.8` rounded to one decimal
(41 gives 5.0). -/
theorem c9_unit_conversion_rounding :
    (∀ c : ℚ, celsius_to_fahrenheit c = ⌈c * 1.8 + 32⌉)
    ∧ (∀ f : ℚ, fahrenheit_to_celsius f = pyRound1 ((f - 32) / 1.8))
    ∧ celsius_to_fahrenheit 5 = 41
    ∧ celsius_to_fahrenheit (51/10) = 42
    ∧ fahrenheit_to_celsius 41 = 5 := by
  refine ⟨fun _ => rfl, fun _ => rfl, ?_, ?_, ?_⟩
  · unfold celsius_to_fahrenheit
    rw [Int.ceil_eq_iff]
    norm_num
  · unfold celsius_to_fahrenheit
    rw [Int.ceil_eq_iff]
    norm_num
  · unfold fahrenheit_to_celsius pyRound1 pyRound
    norm_num

/-! Register addresses, with the names used by the source (including its typos). -/

def T1_AIR_PROBE_TEMPERATURE_REGISTER : Nat := 0
def T2_EVAPORATOR_PROBE_TEMPERATURE_REGISTER : Nat := 1
def COMPRESSOR_OUTPUT_REGISTER : Nat := 137
def EVAPORATOR_FAN_OUTPUT_REGISTER : Nat := 138
def DEFROST_OUTPUT_REGISTER : Nat := 139
def DEFROST_OUTPUT_REGISTRER : Nat := 139
def AUXILLARY_OUTPUT_1_REGISTER : Nat := 140
def MINIMUM_SETPOINT_REGISTER : Nat := 201
def MAXIMUM_SETPOINT_REGISTER : Nat := 202
def SETPOINT_LOW_REGISTER : Nat := 201
def SETPOINT_HIGH_REGISTER : Nat := 202
def SETPOINT_REGISTER : Nat := 203
def HY0_REGISTER : Nat := 204
def HY1_REGISTER : Nat := 205
def CRT_REGISTER : Nat := 206
def DEFROST_START_MODE_REGISTER : Nat := 209
def DEFROST_END_TEMPERATURE_REGISTER : Nat := 211
def DEFROST_TYPE_REIGSTER : Nat := 213
def DEFROST_DISPLAY_REGISTER : Nat := 218
def DEFROST_ENABLED_REGISTER : Nat := 400
def DEFROST_BIT : Nat := 4
def MANUAL_STANDBY_REGISTER : Nat := 700
def STANDBY_REGISTER : Nat := 701
def T2_ENABLED_REGISTER : Nat := 705
def LIGHTS_REGISTER : Nat := 707

/-- Enumerated codes of the defrost start-mode register (cabinet.py map). -/
def DEFROST_START_MODE_MAP : Nat → Option String := fun c =>
  match c with
  | 0 => some "NON"
  | 1 => some "TIM"
  | 2 => some "FRO"
  | 3 => some "RTC"
  | _ => none

/-- Enumerated codes of the defrost type register (cabinet.py map). -/
def DEFROST_TYPE_MAP : Nat → Option String := fun c =>
  match c with
  | 0 => some "OFF"
  | 1 => some "ELE"
  | 2 => some "GAS"
  | _ => none

/-- `enable_manual_standby` (`POST /<device_id>/standby/manual/on`,
src/routes/standby.py).  Validates the device, opens the instrument (liveness
probe), reads the manual-standby register; when already set it returns the
idempotent response, otherwise it writes 1 — to `STANDBY_REGISTER`, exactly
as the source does. -/
def enable_manual_standby (deviceKnown : Bool) (regs0 : Nat → Nat) : Outcome × Sess :=
  if deviceKnown = false then (Outcome.resp 404 "Device was not found", ⟨regs0, []⟩) else
  let s := create_instrument regs0
  let r := Sess.readU0 s MANUAL_STANDBY_REGISTER
  if r.1 ≠ 0 then
    (Outcome.resp 200 "Device is already has manual standby mode enabled", r.2)
  else
    (Outcome.resp 200 "manual_standby_status enabled",
      Sess.writeU0 r.2 STANDBY_REGISTER 1)

/-- `turn_defrost_on` (`POST /<device_id>/defrost/on`, src/routes/defrost.py).
Reads the defrost output status; when already defrosting it is a no-op;
otherwise it read-modify-writes the enable bitfield, setting bit
`DEFROST_BIT` (`defrost_status |= (1 << DEFROST_BIT)`). -/
def turn_defrost_on (deviceKnown : Bool) (regs0 : Nat → Nat) : Outcome × Sess :=
  if deviceKnown = false then (Outcome.resp 404 "Device was not found", ⟨regs0, []⟩) else
  let s := create_instrument regs0
  let r := Sess.readU0 s DEFROST_OUTPUT_REGISTER
  if r.1 ≠ 0 then
    (Outcome.resp 200 "Cabinet is already in defrost mode", r.2)
  else
    let rs := Sess.readU0 r.2 DEFROST_ENABLED_REGISTER
    (Outcome.resp 200 "enabled",
      Sess.writeU0 rs.2 DEFROST_ENABLED_REGISTER (rs.1 ||| (1 <<< DEFROST_BIT)))

/-- `turn_defrost_off` (`POST /<device_id>/defrost/off`, src/routes/defrost.py).
When defrost is active: save the current T2 reading and the current defrost
end temperature, force the end-temperature register to the T2 reading, clear
bit `DEFROST_BIT` of the enable bitfield preserving the other bits
(`defrost_status &= ~(1 << DEFROST_BIT)`, which on a nonnegative Python int
is bitwise and-not, i.e. `Nat.ldiff`), then restore the saved end
temperature. -/
def turn_defrost_off (deviceKnown : Bool) (regs0 : Nat → Nat) : Outcome × Sess :=
  if deviceKnown = false then (Outcome.resp 404 "Device was not found", ⟨regs0, []⟩) else
  let s := create_instrument regs0
  let r := Sess.readU0 s DEFROST_OUTPUT_REGISTER
  if r.1 = 0 then
    (Outcome.resp 200 "Cabinet is already not in defrost mode", r.2)
  else
    let rt2 := Sess.readS1 r.2 T2_EVAPORATOR_PROBE_TEMPERATURE_REGISTER
    let rend := Sess.readS1 rt2.2 DEFROST_END_TEMPERATURE_REGISTER
    let s1 := Sess.writeS1 rend.2 DEFROST_END_TEMPERATURE_REGISTER rt2.1
    let rs := Sess.readU0 s1 DEFROST_ENABLED_REGISTER
    let s2 := Sess.writeU0 rs.2 DEFROST_ENABLED_REGISTER
                (Nat.ldiff rs.1 (1 <<< DEFROST_BIT))
    let s3 := Sess.writeS1 s2 DEFROST_END_TEMPERATURE_REGISTER rend.1
    (Outcome.resp 200 "disabled", s3)

/-- `set_defrost_start_mode` (`POST /<device_id>/defrost/start-mode`,
src/routes/defrost.py).  Parses the JSON body, validates the device, applies
`int()` to the `start_mode` field (raising `TypeError` when the field is
absent, before the dead `is None` check), creates the instrument (liveness
probe), and only then range-checks the mode, writing it when in 0..3. -/
def set_defrost_start_mode (data : Option (Option ℚ)) (deviceKnown : Bool)
    (regs0 : Nat → Nat) : Outcome × Sess :=
  match data with
  | none => (Outcome.resp 500 "Invalid JSON", ⟨regs0, []⟩)
  | some field =>
    if deviceKnown = false then (Outcome.resp 404 "Device was not found", ⟨regs0, []⟩) else
    match field with
    | none => (Outcome.uncaught "TypeError in int(None)", ⟨regs0, []⟩)
    | some x =>
      let start_mode : Int := pyTrunc x
      let s := create_instrument regs0
      if ¬ (0 ≤ start_mode ∧ start_mode ≤ 3) then
        (Outcome.resp 400 "start_mode must be between 0 and 3", s)
      else
        (Outcome.resp 200 "start mode set",
          Sess.writeU0 s DEFROST_START_MODE_REGISTER start_mode.toNat)

/-- `set_defrost_type` (`POST /<device_id>/defrost/type`,
src/routes/defrost.py).  After JSON parsing the source calls
`validate_device_id(device_id)` without the required `device_collection`
argument, so the call raises `TypeError` unconditionally; nothing after it
is reachable. -/
def set_defrost_type (data : Option (Option ℚ)) (deviceKnown : Bool)
    (regs0 : Nat → Nat) : Outcome × Sess :=
  match data with
  | none => (Outcome.resp 500 "Invalid JSON", ⟨regs0, []⟩)
  | some _ =>
    (Outcome.uncaught "TypeError in validate_device_id, missing argument", ⟨regs0, []⟩)

/-- `set_defrost_display` (`POST /<device_id>/defrost/display`,
src/routes/defrost.py).  Same broken one-argument `validate_device_id` call
as `set_defrost_type`: raises `TypeError` unconditionally after JSON
parsing. -/
def set_defrost_display (data : Option (Option ℚ)) (deviceKnown : Bool)
    (regs0 : Nat → Nat) : Outcome × Sess :=
  match data with
  | none => (Outcome.resp 500 "Invalid JSON", ⟨regs0, []⟩)
  | some _ =>
    (Outcome.uncaught "TypeError in validate_device_id, missing argument", ⟨regs0, []⟩)

/-- `set_setpoint` (`POST /<device_id>/setpoint`, src/routes/setpoint.py).
Validates the device, applies `float()` to the `setpoint` body field
(raising `TypeError` when absent, before the dead `is None` check),
validates the unit, opens the instrument, reads min and max setpoints,
converts them to the caller unit when Fahrenheit, rejects when the request
is outside [min, max], else converts to Celsius, writes the setpoint
register and syncs the mirror field for the current mode (`mode = none`
models a missing `currentMode`, raising inside the handler). -/
def set_setpoint (deviceKnown : Bool) (body : Option ℚ) (unit0 : String)
    (mode : Option String) (regs0 : Nat → Nat) : Outcome × Sess :=
  if deviceKnown = false then (Outcome.resp 404 "Device was not found", ⟨regs0, []⟩) else
  match body with
  | none => (Outcome.uncaught "TypeError in float(None)", ⟨regs0, []⟩)
  | some new_setpoint =>
    let unit := pyUpper unit0
    if unit ≠ "C" ∧ unit ≠ "F" then
      (Outcome.resp 400 "Invalid unit specified", ⟨regs0, []⟩)
    else
      let s := create_instrument regs0
      let r1 := Sess.readS1 s MINIMUM_SETPOINT_REGISTER
      let r2 := Sess.readS1 r1.2 MAXIMUM_SETPOINT_REGISTER
      let min_setpoint : ℚ := if unit = "F" then (celsius_to_fahrenheit r1.1 : ℚ) else r1.1
      let max_setpoint : ℚ := if unit = "F" then (celsius_to_fahrenheit r2.1 : ℚ) else r2.1
      if ¬ (min_setpoint ≤ new_setpoint ∧ new_setpoint ≤ max_setpoint) then
        (Outcome.resp 400 "Setpoint must be betweeen min and max", r2.2)
      else
        let celsius_setpoint := if unit = "F" then fahrenheit_to_celsius new_setpoint
                                else new_setpoint
        let s2 := Sess.writeS1 r2.2 SETPOINT_REGISTER celsius_setpoint
        (match mode with
         | none => Outcome.resp 500 "TypeError reading currentMode"
         | some _ => Outcome.resp 200 "Setpoint updated", s2)

/-- `set_min_setpoint` (`POST /<device_id>/setpoint/min`,
src/routes/setpoint.py).  Same shape as `set_setpoint`: the bound is
`MIN_SETPOINT ≤ v ≤ max` with `MIN_SETPOINT = -50` (Celsius) or `-58`
(Fahrenheit), and the write goes to the minimum-setpoint register. -/
def set_min_setpoint (deviceKnown : Bool) (body : Option ℚ) (unit0 : String)
    (mode : Option String) (regs0 : Nat → Nat) : Outcome × Sess :=
  if deviceKnown = false then (Outcome.resp 404 "Device was not found", ⟨regs0, []⟩) else
  match body with
  | none => (Outcome.uncaught "TypeError in float(None)", ⟨regs0, []⟩)
  | some new_min_setpoint =>
    let unit := pyUpper unit0
    if unit ≠ "C" ∧ unit ≠ "F" then
      (Outcome.resp 400 "Invalid unit specified", ⟨regs0, []⟩)
    else
      let s := create_instrument regs0
      let r := Sess.readS1 s MAXIMUM_SETPOINT_REGISTER
      let max_setpoint : ℚ := if unit = "F" then (celsius_to_fahrenheit r.1 : ℚ) else r.1
      let MIN_SETPOINT : ℚ := if unit = "F" then -58 else -50
      if ¬ (MIN_SETPOINT ≤ new_min_setpoint ∧ new_min_setpoint ≤ max_setpoint) then
        (Outcome.resp 400 "Minimum setpoint must be betweeen MIN and max", r.2)
      else
        let celsius_min_setpoint := if unit = "F" then fahrenheit_to_celsius new_min_setpoint
                                    else new_min_setpoint
        let s2 := Sess.writeS1 r.2 MINIMUM_SETPOINT_REGISTER celsius_min_setpoint
        (match mode with
         | none => Outcome.resp 500 "TypeError reading currentMode"
         | some _ => Outcome.resp 200 "Minimum setpoint updated", s2)

/-- `set_max_setpoint` (`POST /<device_id>/setpoint/max`,
src/routes/setpoint.py).  The bound is `min ≤ v ≤ MAX_SETPOINT` with
`MAX_SETPOINT = 110` (Celsius) or `180` (Fahrenheit), and the write goes to
the maximum-setpoint register. -/
def set_max_setpoint (deviceKnown : Bool) (body : Option ℚ) (unit0 : String)
    (mode : Option String) (regs0 : Nat → Nat) : Outcome × Sess :=
  if deviceKnown = false then (Outcome.resp 404 "Device was not found", ⟨regs0, []⟩) else
  match body with
  | none => (Outcome.uncaught "TypeError in float(None)", ⟨regs0, []⟩)
  | some new_max_setpoint =>
    let unit := pyUpper unit0
    if unit ≠ "C" ∧ unit ≠ "F" then
      (Outcome.resp 400 "Invalid unit specified", ⟨regs0, []⟩)
    else
      let s := create_instrument regs0
      let r := Sess.readS1 s MINIMUM_SETPOINT_REGISTER
      let min_setpoint : ℚ := if unit = "F" then (celsius_to_fahrenheit r.1 : ℚ) else r.1
      let MAX_SETPOINT : ℚ := if unit = "F" then 180 else 110
      if ¬ (min_setpoint ≤ new_max_setpoint ∧ new_max_setpoint ≤ MAX_SETPOINT) then
        (Outcome.resp 400 "Maximum setpoint must be betweeen min and MAX", r.2)
      else
        let celsius_max_setpoint := if unit = "F" then fahrenheit_to_celsius new_max_setpoint
                                    else new_max_setpoint
        let s2 := Sess.writeS1 r.2 MAXIMUM_SETPOINT_REGISTER celsius_max_setpoint
        (match mode with
         | none => Outcome.resp 500 "TypeError reading currentMode"
         | some _ => Outcome.resp 200 "Maximum setpoint updated", s2)

/-- `set_hy0_differential` (`POST /<device_id>/compressor/hy0`,
src/routes/compressor.py).  Parses the JSON body, validates the device,
applies `int()` to the `differential` field (raising `TypeError` when the
field is absent, before the dead `is None` check), creates the instrument
(liveness probe), and only then checks `1.0 <= hy0 <= 10`, writing the
truncated value when in range. -/
def set_hy0_differential (data : Option (Option ℚ)) (deviceKnown : Bool)
    (regs0 : Nat → Nat) : Outcome × Sess :=
  match data with
  | none => (Outcome.resp 500 "Invalid JSON", ⟨regs0, []⟩)
  | some field =>
    if deviceKnown = false then (Outcome.resp 404 "Device was not found", ⟨regs0, []⟩) else
    match field with
    | none => (Outcome.uncaught "TypeError in int(None)", ⟨regs0, []⟩)
    | some x =>
      let hy0_differential : Int := pyTrunc x
      let s := create_instrument regs0
      if ¬ ((1:Int) ≤ hy0_differential ∧ hy0_differential ≤ 10) then
        (Outcome.resp 400 "Differential must be betweeen 1.0 and 10.0", s)
      else
        (Outcome.resp 200 "HY0", Sess.writeU0 s HY0_REGISTER hy0_differential.toNat)

/-- `set_hy1_differential` (`POST /<device_id>/compressor/hy1`,
src/routes/compressor.py).  Identical to HY0 except the bound is
`0.0 <= hy1 <= 10` and the write goes to the HY1 register. -/
def set_hy1_differential (data : Option (Option ℚ)) (deviceKnown : Bool)
    (regs0 : Nat → Nat) : Outcome × Sess :=
  match data with
  | none => (Outcome.resp 500 "Invalid JSON", ⟨regs0, []⟩)
  | some field =>
    if deviceKnown = false then (Outcome.resp 404 "Device was not found", ⟨regs0, []⟩) else
    match field with
    | none => (Outcome.uncaught "TypeError in int(None)", ⟨regs0, []⟩)
    | some x =>
      let hy1_differential : Int := pyTrunc x
      let s := create_instrument regs0
      if ¬ ((0:Int) ≤ hy1_differential ∧ hy1_differential ≤ 10) then
        (Outcome.resp 400 "Differential must be betweeen 0.0 and 10.0", s)
      else
        (Outcome.resp 200 "HY1", Sess.writeU0 s HY1_REGISTER hy1_differential.toNat)

/-- `set_compressor_rest_time` (`POST /<device_id>/compressor/rest-time`,
src/routes/compressor.py).  Same pattern with bound `0 <= crt <= 30` on the
truncated `rest_time` field and the CRT register. -/
def set_compressor_rest_time (data : Option (Option ℚ)) (deviceKnown : Bool)
    (regs0 : Nat → Nat) : Outcome × Sess :=
  match data with
  | none => (Outcome.resp 500 "Invalid JSON", ⟨regs0, []⟩)
  | some field =>
    if deviceKnown = false then (Outcome.resp 404 "Device was not found", ⟨regs0, []⟩) else
    match field with
    | none => (Outcome.uncaught "TypeError in int(None)", ⟨regs0, []⟩)
    | some x =>
      let crt : Int := pyTrunc x
      let s := create_instrument regs0
      if ¬ ((0:Int) ≤ crt ∧ crt ≤ 30) then
        (Outcome.resp 400 "Compressor rest time must be betweeen 0 and 30", s)
      else
        (Outcome.resp 200 "CRT", Sess.writeU0 s CRT_REGISTER crt.toNat)

/-- `read_temperature_t2` (`GET /<device_id>/probe/temperature/t2`,
src/routes/probe.py).  Validates device and unit, opens the instrument,
reads the T2-enabled flag and fails with 400 when it is 0 without touching
the T2 temperature register; otherwise reads the temperature. -/
def read_temperature_t2 (deviceKnown : Bool) (unit0 : String)
    (regs0 : Nat → Nat) : Outcome × Sess :=
  if deviceKnown = false then (Outcome.resp 404 "Device was not found", ⟨regs0, []⟩) else
  let unit := pyUpper unit0
  if unit ≠ "C" ∧ unit ≠ "F" then
    (Outcome.resp 400 "Invalid unit specified", ⟨regs0, []⟩)
  else
    let s := create_instrument regs0
    let r := Sess.readU0 s T2_ENABLED_REGISTER
    if r.1 = 0 then
      (Outcome.resp 400 "Probe is disabled. Cannot read temperature.", r.2)
    else
      let rt := Sess.readS1 r.2 T2_EVAPORATOR_PROBE_TEMPERATURE_REGISTER
      (Outcome.resp 200 "temperature T2", rt.2)

/-- `read_temperatures` (`GET /<device_id>/probe/temperatures`,
src/routes/probe.py).  Validates device and unit, opens the instrument and
reads T1 then T2 unconditionally — the T2-enabled flag is never consulted. -/
def read_temperatures (deviceKnown : Bool) (unit0 : String)
    (regs0 : Nat → Nat) : Outcome × Sess :=
  if deviceKnown = false then (Outcome.resp 404 "Device was not found", ⟨regs0, []⟩) else
  let unit := pyUpper unit0
  if unit ≠ "C" ∧ unit ≠ "F" then
    (Outcome.resp 400 "Invalid unit specified", ⟨regs0, []⟩)
  else
    let s := create_instrument regs0
    let r1 := Sess.readS1 s T1_AIR_PROBE_TEMPERATURE_REGISTER
    let r2 := Sess.readS1 r1.2 T2_EVAPORATOR_PROBE_TEMPERATURE_REGISTER
    (Outcome.resp 200 "temperatures", r2.2)

/-- `get_cabinet_status` (`GET /<device_id>/cabinet/status`,
src/routes/cabinet.py).  Validates device and unit, opens the instrument
and reads the full snapshot (setpoints, differentials, standby, T1, T2,
four output statuses, lights, defrost status and the two defrost enums);
the T2-enabled flag is never consulted.  An enum code outside its map
raises `KeyError` inside the handler (500). -/
def get_cabinet_status (deviceKnown : Bool) (unit0 : String)
    (regs0 : Nat → Nat) : Outcome × Sess :=
  if deviceKnown = false then (Outcome.resp 404 "Device was not found", ⟨regs0, []⟩) else
  let unit := pyUpper unit0
  if unit ≠ "C" ∧ unit ≠ "F" then
    (Outcome.resp 400 "Invalid unit specified", ⟨regs0, []⟩)
  else
    let s := create_instrument regs0
    let r01 := Sess.readS1 s SETPOINT_LOW_REGISTER
    let r02 := Sess.readS1 r01.2 SETPOINT_HIGH_REGISTER
    let r03 := Sess.readS1 r02.2 SETPOINT_REGISTER
    let r04 := Sess.readU0 r03.2 HY0_REGISTER
    let r05 := Sess.readU0 r04.2 HY1_REGISTER
    let r06 := Sess.readU0 r05.2 STANDBY_REGISTER
    let r07 := Sess.readS1 r06.2 T1_AIR_PROBE_TEMPERATURE_REGISTER
    let r08 := Sess.readS1 r07.2 T2_EVAPORATOR_PROBE_TEMPERATURE_REGISTER
    let r09 := Sess.readU0 r08.2 EVAPORATOR_FAN_OUTPUT_REGISTER
    let r10 := Sess.readU0 r09.2 COMPRESSOR_OUTPUT_REGISTER
    let r11 := Sess.readU0 r10.2 AUXILLARY_OUTPUT_1_REGISTER
    let r12 := Sess.readU0 r11.2 LIGHTS_REGISTER
    let r13 := Sess.readU0 r12.2 DEFROST_OUTPUT_REGISTRER
    let r14 := Sess.readU0 r13.2 DEFROST_START_MODE_REGISTER
    let r15 := Sess.readU0 r14.2 DEFROST_TYPE_REIGSTER
    (match DEFROST_START_MODE_MAP r14.1, DEFROST_TYPE_MAP r15.1 with
     | some _, some _ => Outcome.resp 200 "cabinet status"
     | _, _ => Outcome.resp 500 "KeyError in enum map", r15.2)

/-- Claim C1 (code bug): on a known device whose manual-standby register
reads 0, `enable_manual_standby` reads register 700 but issues its single
write to register 701 (`STANDBY_REGISTER`) — not to the manual-standby
register it read, which is left unchanged at 0. -/
theorem c1_enable_manual_standby_writes_wrong_register :
    (enable_manual_standby true (fun _ => 0)).1
        = Outcome.resp 200 "manual_standby_status enabled"
    ∧ (enable_manual_standby true (fun _ => 0)).2.trace
        = [Txn.read 199, Txn.read MANUAL_STANDBY_REGISTER, Txn.write STANDBY_REGISTER 1]
    ∧ (enable_manual_standby true (fun _ => 0)).2.regs MANUAL_STANDBY_REGISTER = 0
    ∧ (enable_manual_standby true (fun _ => 0)).2.regs STANDBY_REGISTER = 1
    ∧ MANUAL_STANDBY_REGISTER ≠ STANDBY_REGISTER := by
  decide

/-- Claim C6 (code bug): a set-setpoint request without a `setpoint` field
and a set-HY0 request without a `differential` field both crash with an
uncaught `TypeError` (`float(None)` / `int(None)`) instead of returning the
intended 400 "value is required" response; no register transaction occurs. -/
theorem c6_missing_field_raises_typeerror :
    (set_setpoint true none "C" (some "cooler") (fun _ => 0)).1
        = Outcome.uncaught "TypeError in float(None)"
    ∧ (set_setpoint true none "C" (some "cooler") (fun _ => 0)).2.trace = []
    ∧ (set_hy0_differential (some none) true (fun _ => 0)).1
        = Outcome.uncaught "TypeError in int(None)"
    ∧ (set_hy0_differential (some none) true (fun _ => 0)).2.trace = [] := by
  decide

/-- Claim C7 (code bug): `set_defrost_type` and `set_defrost_display` call
`validate_device_id` with its second argument missing, so for every device —
known or not — any request with a JSON body raises an uncaught `TypeError`;
in particular an unknown device never receives the `DeviceNotFound` 404, and
the JSON body is processed before any device resolution is attempted. -/
theorem c7_defrost_type_display_never_resolve_device (deviceKnown : Bool)
    (x : Option ℚ) (regs0 : Nat → Nat) :
    (set_defrost_type (some x) deviceKnown regs0).1
        = Outcome.uncaught "TypeError in validate_device_id, missing argument"
    ∧ (set_defrost_type (some x) deviceKnown regs0).2.trace = []
    ∧ (set_defrost_type (some x) deviceKnown regs0).1
        ≠ Outcome.resp 404 "Device was not found"
    ∧ (set_defrost_display (some x) deviceKnown regs0).1
        = Outcome.uncaught "TypeError in validate_device_id, missing argument"
    ∧ (set_defrost_display (some x) deviceKnown regs0).2.trace = []
    ∧ (set_defrost_display (some x) deviceKnown regs0).1
        ≠ Outcome.resp 404 "Device was not found" := by
  refine ⟨rfl, rfl, by simp [set_defrost_type], rfl, rfl, by simp [set_defrost_display]⟩

/-- Claim C2: when defrost is active and all transactions succeed, the
defrost-stop sequence leaves the defrost-end-temperature register at its
pre-operation value: the temporary override to the current T2 reading is
exactly undone by the final restore write. -/
theorem c2_defrost_stop_restores_end_temperature (regs0 : Nat → Nat)
    (hwf : regs0 DEFROST_END_TEMPERATURE_REGISTER < 65536)
    (hact : regs0 DEFROST_OUTPUT_REGISTER % 65536 ≠ 0) :
    (turn_defrost_off true regs0).2.regs DEFROST_END_TEMPERATURE_REGISTER
      = regs0 DEFROST_END_TEMPERATURE_REGISTER := by
  simp only [turn_defrost_off, create_instrument, Sess.readU0, Sess.readS1, Sess.writeS1,
    Sess.writeU0]
  rw [if_neg (by simp : ¬(true = false)), if_neg hact]
  simp [encodeS1_decodeS1 _ hwf]

/-- A concrete register file: defrost active (register 139 reads 1), every
other register holding 42. -/
def demoRegs : Nat → Nat := fun a => if a = 139 then 1 else 42

/-- Witness for C2: on the concrete device `demoRegs` (defrost active,
end-temperature register at raw 42) the stop sequence leaves the
end-temperature register at 42. -/
theorem c2_defrost_stop_restores_end_temperature_witness :
    (turn_defrost_off true demoRegs).2.regs DEFROST_END_TEMPERATURE_REGISTER
      = demoRegs DEFROST_END_TEMPERATURE_REGISTER :=
  c2_defrost_stop_restores_end_temperature demoRegs (by decide) (by decide)

/-- Claim C3: a successful defrost-start writes back the enable bitfield
with bit 4 set (`v ||| 2^4`) and a successful defrost-stop writes it back
with bit 4 cleared (`v &&& ~2^4`, i.e. `Nat.ldiff v 2^4`); in both cases
every bit other than bit 4 is unchanged. -/
theorem c3_defrost_bitfield_preserves_other_bits (regs0 : Nat → Nat)
    (hwf : regs0 DEFROST_ENABLED_REGISTER < 65536) :
    (regs0 DEFROST_OUTPUT_REGISTER % 65536 = 0 →
      (turn_defrost_on true regs0).2.regs DEFROST_ENABLED_REGISTER
          = regs0 DEFROST_ENABLED_REGISTER ||| (1 <<< DEFROST_BIT)
      ∧ (∀ i, i ≠ 4 →
          ((turn_defrost_on true regs0).2.regs DEFROST_ENABLED_REGISTER).testBit i
            = (regs0 DEFROST_ENABLED_REGISTER).testBit i)
      ∧ ((turn_defrost_on true regs0).2.regs DEFROST_ENABLED_REGISTER).testBit 4 = true)
    ∧ (regs0 DEFROST_OUTPUT_REGISTER % 65536 ≠ 0 →
      (turn_defrost_off true regs0).2.regs DEFROST_ENABLED_REGISTER
          = Nat.ldiff (regs0 DEFROST_ENABLED_REGISTER) (1 <<< DEFROST_BIT)
      ∧ (∀ i, i ≠ 4 →
          ((turn_defrost_off true regs0).2.regs DEFROST_ENABLED_REGISTER).testBit i
            = (regs0 DEFROST_ENABLED_REGISTER).testBit i)
      ∧ ((turn_defrost_off true regs0).2.regs DEFROST_ENABLED_REGISTER).testBit 4 = false) := by
  have hpow : (65536 : Nat) = 2 ^ 16 := by norm_num
  have hsh : (1 <<< DEFROST_BIT : Nat) = 2 ^ 4 := by decide
  have hv := hwf
  constructor
  · intro hoff
    have hfinal : (turn_defrost_on true regs0).2.regs DEFROST_ENABLED_REGISTER
        = regs0 DEFROST_ENABLED_REGISTER ||| (1 <<< DEFROST_BIT) := by
      simp only [turn_defrost_on, create_instrument, Sess.readU0, Sess.writeU0]
      rw [if_neg (by simp : ¬(true = false)), if_neg (by simp [hoff])]
      have h1 : regs0 DEFROST_ENABLED_REGISTER % 65536 = regs0 DEFROST_ENABLED_REGISTER :=
        Nat.mod_eq_of_lt hwf
      have h2 : (regs0 DEFROST_ENABLED_REGISTER ||| (1 <<< DEFROST_BIT)) % 65536
          = regs0 DEFROST_ENABLED_REGISTER ||| (1 <<< DEFROST_BIT) := by
        refine Nat.mod_eq_of_lt ?_
        rw [hpow, hsh]
        exact Nat.or_lt_two_pow (hpow ▸ hwf) (by norm_num)
      simp [h1, h2]
    refine ⟨hfinal, ?_, ?_⟩
    · intro i hi
      rw [hfinal, hsh, Nat.testBit_lor, Nat.testBit_two_pow]
      simp [Ne.symm hi]
    · rw [hfinal, hsh, Nat.testBit_lor, Nat.testBit_two_pow]
      simp
  · intro hon
    have hfinal : (turn_defrost_off true regs0).2.regs DEFROST_ENABLED_REGISTER
        = Nat.ldiff (regs0 DEFROST_ENABLED_REGISTER) (1 <<< DEFROST_BIT) := by
      simp only [turn_defrost_off, create_instrument, Sess.readU0, Sess.readS1, Sess.writeS1,
        Sess.writeU0]
      rw [if_neg (by simp : ¬(true = false)), if_neg hon]
      have h1 : regs0 DEFROST_ENABLED_REGISTER % 65536 = regs0 DEFROST_ENABLED_REGISTER :=
        Nat.mod_eq_of_lt hwf
      have h2 : Nat.ldiff (regs0 DEFROST_ENABLED_REGISTER) (1 <<< DEFROST_BIT) % 65536
          = Nat.ldiff (regs0 DEFROST_ENABLED_REGISTER) (1 <<< DEFROST_BIT) := by
        refine Nat.mod_eq_of_lt ?_
        rw [hpow]
        exact Nat.bitwise_lt_two_pow (hpow ▸ hwf) (by rw [hsh]; norm_num)
      have hne : DEFROST_ENABLED_REGISTER ≠ DEFROST_END_TEMPERATURE_REGISTER := by decide
      have hne2 : DEFROST_ENABLED_REGISTER ≠ T2_EVAPORATOR_PROBE_TEMPERATURE_REGISTER := by decide
      simp [hne, hne2, h1, h2]
    refine ⟨hfinal, ?_, ?_⟩
    · intro i hi
      rw [hfinal, hsh, Nat.testBit_ldiff, Nat.testBit_two_pow]
      simp [Ne.symm hi]
    · rw [hfinal, hsh, Nat.testBit_ldiff, Nat.testBit_two_pow]
      simp

/-- Witness for C3: starting defrost on an all-zero device sets bit 4 of the
enable bitfield; stopping it on `demoRegs` (defrost active, bitfield 42)
clears bit 4. -/
theorem c3_defrost_bitfield_preserves_other_bits_witness :
    ((turn_defrost_on true (fun _ => 0)).2.regs DEFROST_ENABLED_REGISTER).testBit 4 = true
    ∧ ((turn_defrost_off true demoRegs).2.regs DEFROST_ENABLED_REGISTER).testBit 4 = false :=
  ⟨((c3_defrost_bitfield_preserves_other_bits (fun _ => 0) (by decide)).1 (by decide)).2.2,
   ((c3_defrost_bitfield_preserves_other_bits demoRegs (by decide)).2 (by decide)).2.2⟩

/-- Counterexample to claim C5 as stated: a set-HY0 request with the
out-of-range differential 11 on a known device is rejected as a 400
validation error, yet one register transaction — the liveness-probe read of
register 199 issued by `create_instrument` — has already occurred. -/
theorem c5_counterexample_out_of_range_after_probe :
    (set_hy0_differential (some (some 11)) true (fun _ => 0)).1
        = Outcome.resp 400 "Differential must be betweeen 1.0 and 10.0"
    ∧ (set_hy0_differential (some (some 11)) true (fun _ => 0)).2.trace ≠ [] := by
  have ht : pyTrunc (11:ℚ) = 11 := by
    unfold pyTrunc
    rw [if_pos (by norm_num)]
    norm_num
  simp [set_hy0_differential, create_instrument, Sess.readU0, ht]

/-- Claim C5 as amended: missing/invalid JSON is reported with zero register
transactions, but an out-of-range numeric value on the cited write commands
is rejected only after the session liveness probe: at the moment of the 400
rejection exactly one transaction (the probe read of register 199) has been
issued and no write has occurred. -/
theorem c5_validation_vs_register_transactions (x : ℚ) (regs0 : Nat → Nat) :
    (set_hy0_differential none true regs0).2.trace = []
    ∧ (set_defrost_start_mode none true regs0).2.trace = []
    ∧ (¬ ((1:Int) ≤ pyTrunc x ∧ pyTrunc x ≤ 10) →
        (set_hy0_differential (some (some x)) true regs0).1
          = Outcome.resp 400 "Differential must be betweeen 1.0 and 10.0"
        ∧ (set_hy0_differential (some (some x)) true regs0).2.trace = [Txn.read 199])
    ∧ (¬ ((0:Int) ≤ pyTrunc x ∧ pyTrunc x ≤ 3) →
        (set_defrost_start_mode (some (some x)) true regs0).1
          = Outcome.resp 400 "start_mode must be between 0 and 3"
        ∧ (set_defrost_start_mode (some (some x)) true regs0).2.trace = [Txn.read 199]) := by
  refine ⟨rfl, rfl, fun h => ?_, fun h => ?_⟩
  · simp [set_hy0_differential, create_instrument, Sess.readU0, h]
  · simp [set_defrost_start_mode, create_instrument, Sess.readU0, h]

/-- Witness for the amended C5: the out-of-range differential 11 exercises
both rejection branches. -/
theorem c5_validation_vs_register_transactions_witness :
    (set_hy0_differential (some (some 11)) true (fun _ => 0)).2.trace = [Txn.read 199]
    ∧ (set_defrost_start_mode (some (some 11)) true (fun _ => 0)).2.trace = [Txn.read 199] :=
  ⟨((c5_validation_vs_register_transactions 11 (fun _ => 0)).2.2.1
      (by norm_num [pyTrunc])).2,
   ((c5_validation_vs_register_transactions 11 (fun _ => 0)).2.2.2
      (by norm_num [pyTrunc])).2⟩

/-- Claim C10: the differential and rest-time commands truncate the request
value toward zero before validating and writing: when the truncation lies in
the range the written raw value is exactly the truncation, and when it falls
outside the range the request is rejected with 400 and nothing is written. -/
theorem c10_compressor_values_truncated (x : ℚ) (regs0 : Nat → Nat) :
    (((1:Int) ≤ pyTrunc x ∧ pyTrunc x ≤ 10) →
        (set_hy0_differential (some (some x)) true regs0).2.trace
          = [Txn.read 199, Txn.write HY0_REGISTER (pyTrunc x).toNat])
    ∧ (¬ ((1:Int) ≤ pyTrunc x ∧ pyTrunc x ≤ 10) →
        (set_hy0_differential (some (some x)) true regs0).1
          = Outcome.resp 400 "Differential must be betweeen 1.0 and 10.0"
        ∧ writesTo (set_hy0_differential (some (some x)) true regs0).2.trace
            HY0_REGISTER = false)
    ∧ (((0:Int) ≤ pyTrunc x ∧ pyTrunc x ≤ 10) →
        (set_hy1_differential (some (some x)) true regs0).2.trace
          = [Txn.read 199, Txn.write HY1_REGISTER (pyTrunc x).toNat])
    ∧ (((0:Int) ≤ pyTrunc x ∧ pyTrunc x ≤ 30) →
        (set_compressor_rest_time (some (some x)) true regs0).2.trace
          = [Txn.read 199, Txn.write CRT_REGISTER (pyTrunc x).toNat]) := by
  refine ⟨fun h => ?_, fun h => ?_, fun h => ?_, fun h => ?_⟩
  · rw [set_hy0_differential]
    simp only [create_instrument, Sess.readU0, Sess.writeU0]
    rw [if_neg (by decide : ¬(true = false)), if_neg (not_not_intro h)]
    simp [Nat.mod_eq_of_lt (show (pyTrunc x).toNat < 65536 by omega)]
  · rw [set_hy0_differential]
    simp only [create_instrument, Sess.readU0, Sess.writeU0]
    rw [if_neg (by decide : ¬(true = false)), if_pos h]
    simp [writesTo]
  · rw [set_hy1_differential]
    simp only [create_instrument, Sess.readU0, Sess.writeU0]
    rw [if_neg (by decide : ¬(true = false)), if_neg (not_not_intro h)]
    simp [Nat.mod_eq_of_lt (show (pyTrunc x).toNat < 65536 by omega)]
  · rw [set_compressor_rest_time]
    simp only [create_instrument, Sess.readU0, Sess.writeU0]
    rw [if_neg (by decide : ¬(true = false)), if_neg (not_not_intro h)]
    simp [Nat.mod_eq_of_lt (show (pyTrunc x).toNat < 65536 by omega)]

/-- Witness for C10: differential 9.9 truncates to 9, passes the HY0 range
check and is written as raw 9; differential 0.5 truncates to 0 and is
rejected by the HY0 lower bound of 1. -/
theorem c10_compressor_values_truncated_witness :
    (set_hy0_differential (some (some (99/10))) true (fun _ => 0)).2.trace
        = [Txn.read 199, Txn.write HY0_REGISTER (pyTrunc (99/10)).toNat]
    ∧ (set_hy0_differential (some (some (1/2))) true (fun _ => 0)).1
        = Outcome.resp 400 "Differential must be betweeen 1.0 and 10.0" :=
  ⟨(c10_compressor_values_truncated (99/10) (fun _ => 0)).1 (by norm_num [pyTrunc]),
   ((c10_compressor_values_truncated (1/2) (fun _ => 0)).2.1 (by norm_num [pyTrunc])).1⟩

/-- Counterexample to claim C8 as stated: on a device whose T2-enabled flag
register reads 0, `read_temperatures` succeeds with 200, reads the T2
temperature register, and never touches the T2-enabled flag register. -/
theorem c8_counterexample_read_temperatures_not_gated :
    (fun _ => (0:Nat)) T2_ENABLED_REGISTER % 65536 = 0
    ∧ (read_temperatures true "C" (fun _ => 0)).1 = Outcome.resp 200 "temperatures"
    ∧ (Txn.read T2_EVAPORATOR_PROBE_TEMPERATURE_REGISTER
        ∈ (read_temperatures true "C" (fun _ => 0)).2.trace)
    ∧ touches (read_temperatures true "C" (fun _ => 0)).2.trace T2_ENABLED_REGISTER = false := by
  decide

/-- Claim C8 as amended: only the single-probe T2 endpoint gates on the
T2-enabled flag — it reads the flag first and, when the flag is 0, fails
with 400 without touching the T2 temperature register — while
`read_temperatures` and `get_cabinet_status` read the T2 temperature
register unconditionally and never consult the flag. -/
theorem c8_t2_gating_only_single_probe_route (u : String) (regs0 : Nat → Nat)
    (hu : pyUpper u = "C" ∨ pyUpper u = "F") :
    (regs0 T2_ENABLED_REGISTER % 65536 = 0 →
      (read_temperature_t2 true u regs0).1
          = Outcome.resp 400 "Probe is disabled. Cannot read temperature."
      ∧ touches (read_temperature_t2 true u regs0).2.trace
          T2_EVAPORATOR_PROBE_TEMPERATURE_REGISTER = false)
    ∧ ((Txn.read T2_EVAPORATOR_PROBE_TEMPERATURE_REGISTER
          ∈ (read_temperatures true u regs0).2.trace)
      ∧ touches (read_temperatures true u regs0).2.trace T2_ENABLED_REGISTER = false)
    ∧ ((Txn.read T2_EVAPORATOR_PROBE_TEMPERATURE_REGISTER
          ∈ (get_cabinet_status true u regs0).2.trace)
      ∧ touches (get_cabinet_status true u regs0).2.trace T2_ENABLED_REGISTER = false) := by
  refine ⟨fun h0 => ?_, ?_, ?_⟩
  · rcases hu with hu | hu <;>
      (rw [read_temperature_t2]
       simp only [create_instrument, Sess.readU0, Sess.readS1, hu]
       rw [if_neg (by decide : ¬(true = false)), if_neg (by decide), if_pos h0]
       simp [touches]
       decide)
  · rcases hu with hu | hu <;>
      (rw [read_temperatures]
       simp only [create_instrument, Sess.readU0, Sess.readS1, hu]
       rw [if_neg (by decide : ¬(true = false)), if_neg (by decide)]
       simp [touches]
       decide)
  · rcases hu with hu | hu <;>
      (rw [get_cabinet_status]
       simp only [create_instrument, Sess.readU0, Sess.readS1, hu]
       rw [if_neg (by decide : ¬(true = false)), if_neg (by decide)]
       simp [touches]
       decide)

/-- Witness for the amended C8: a disabled T2 probe on an all-zero register
file makes the single-probe endpoint fail without touching the temperature
register, while the multi-read endpoints read it regardless. -/
theorem c8_t2_gating_only_single_probe_route_witness :
    ((read_temperature_t2 true "C" (fun _ => 0)).1
        = Outcome.resp 400 "Probe is disabled. Cannot read temperature."
      ∧ touches (read_temperature_t2 true "C" (fun _ => 0)).2.trace
          T2_EVAPORATOR_PROBE_TEMPERATURE_REGISTER = false)
    ∧ touches (read_temperatures true "C" (fun _ => 0)).2.trace T2_ENABLED_REGISTER = false :=
  ⟨(c8_t2_gating_only_single_probe_route "C" (fun _ => 0) (Or.inl (by decide))).1 (by decide),
   ((c8_t2_gating_only_single_probe_route "C" (fun _ => 0) (Or.inl (by decide))).2.1).2⟩

/-- A bound register value converted to the caller unit, exactly as the
setpoint routes do it: identity for Celsius, `celsius_to_fahrenheit` for
Fahrenheit. -/
def boundInUnit (unit : String) (raw : Nat) : ℚ :=
  if unit = "F" then (celsius_to_fahrenheit (decodeS1 raw) : ℚ) else decodeS1 raw

/-- Claim C4: on a known device with a valid unit, each setpoint command
writes its register exactly when the requested value lies within the
inclusive bound expressed in the caller unit — mid in [min, max], min in
[-50 C / -58 F, max], max in [min, 110 C / 180 F] — and a value outside the
bound is rejected with a 400 out-of-range error (and, by the iff, without
the setpoint register being written). -/
theorem c4_setpoint_range_validation (v : ℚ) (u : String) (mode : Option String)
    (regs0 : Nat → Nat) (hu : pyUpper u = "C" ∨ pyUpper u = "F") :
    (writesTo (set_setpoint true (some v) u mode regs0).2.trace SETPOINT_REGISTER = true
      ↔ (boundInUnit (pyUpper u) (regs0 MINIMUM_SETPOINT_REGISTER) ≤ v
          ∧ v ≤ boundInUnit (pyUpper u) (regs0 MAXIMUM_SETPOINT_REGISTER)))
    ∧ (¬ (boundInUnit (pyUpper u) (regs0 MINIMUM_SETPOINT_REGISTER) ≤ v
          ∧ v ≤ boundInUnit (pyUpper u) (regs0 MAXIMUM_SETPOINT_REGISTER)) →
        (set_setpoint true (some v) u mode regs0).1
          = Outcome.resp 400 "Setpoint must be betweeen min and max")
    ∧ (writesTo (set_min_setpoint true (some v) u mode regs0).2.trace
          MINIMUM_SETPOINT_REGISTER = true
      ↔ ((if pyUpper u = "F" then (-58:ℚ) else -50) ≤ v
          ∧ v ≤ boundInUnit (pyUpper u) (regs0 MAXIMUM_SETPOINT_REGISTER)))
    ∧ (¬ ((if pyUpper u = "F" then (-58:ℚ) else -50) ≤ v
          ∧ v ≤ boundInUnit (pyUpper u) (regs0 MAXIMUM_SETPOINT_REGISTER)) →
        (set_min_setpoint true (some v) u mode regs0).1
          = Outcome.resp 400 "Minimum setpoint must be betweeen MIN and max")
    ∧ (writesTo (set_max_setpoint true (some v) u mode regs0).2.trace
          MAXIMUM_SETPOINT_REGISTER = true
      ↔ (boundInUnit (pyUpper u) (regs0 MINIMUM_SETPOINT_REGISTER) ≤ v
          ∧ v ≤ (if pyUpper u = "F" then (180:ℚ) else 110)))
    ∧ (¬ (boundInUnit (pyUpper u) (regs0 MINIMUM_SETPOINT_REGISTER) ≤ v
          ∧ v ≤ (if pyUpper u = "F" then (180:ℚ) else 110)) →
        (set_max_setpoint true (some v) u mode regs0).1
          = Outcome.resp 400 "Maximum setpoint must be betweeen min and MAX") := by
  refine ⟨?_, ?_, ?_, ?_, ?_, ?_⟩
  · rcases hu with hu | hu <;>
      (simp [set_setpoint, create_instrument, Sess.readU0, Sess.readS1, Sess.writeS1,
        boundInUnit, hu]
       split_ifs with hb
       · simp [writesTo]
         exact hb
       · simp [writesTo]
         push_neg at hb
         exact hb)
  · rcases hu with hu | hu <;>
      (intro hnb
       simp [boundInUnit, hu] at hnb
       simp [set_setpoint, create_instrument, Sess.readU0, Sess.readS1, Sess.writeS1, hu]
       rw [if_pos hnb])
  · rcases hu with hu | hu <;>
      (simp [set_min_setpoint, create_instrument, Sess.readU0, Sess.readS1, Sess.writeS1,
        boundInUnit, hu]
       split_ifs with hb
       · simp [writesTo]
         exact hb
       · simp [writesTo]
         push_neg at hb
         exact hb)
  · rcases hu with hu | hu <;>
      (intro hnb
       simp [boundInUnit, hu] at hnb
       simp [set_min_setpoint, create_instrument, Sess.readU0, Sess.readS1, Sess.writeS1, hu]
       rw [if_pos hnb])
  · rcases hu with hu | hu <;>
      (simp [set_max_setpoint, create_instrument, Sess.readU0, Sess.readS1, Sess.writeS1,
        boundInUnit, hu]
       split_ifs with hb
       · simp [writesTo]
         exact hb
       · simp [writesTo]
         push_neg at hb
         exact hb)
  · rcases hu with hu | hu <;>
      (intro hnb
       simp [boundInUnit, hu] at hnb
       simp [set_max_setpoint, create_instrument, Sess.readU0, Sess.readS1, Sess.writeS1, hu]
       rw [if_pos hnb])

/-- A concrete register file for the setpoint witness: maximum setpoint
register holds raw 100 (10.0 C), everything else 0. -/
def demo4 : Nat → Nat := fun a => if a = 202 then 100 else 0

/-- Witness for C4: with min 0 C and max 10 C, a mid-setpoint request of 5 C
is written, and a Fahrenheit minimum-setpoint request of -60 (below the
-58 F absolute floor) is rejected with the 400 out-of-range error. -/
theorem c4_setpoint_range_validation_witness :
    writesTo (set_setpoint true (some 5) "C" (some "cooler") demo4).2.trace
        SETPOINT_REGISTER = true
    ∧ (set_min_setpoint true (some (-60)) "F" (some "cooler") demo4).1
        = Outcome.resp 400 "Minimum setpoint must be betweeen MIN and max" :=
  ⟨(c4_setpoint_range_validation 5 "C" (some "cooler") demo4 (Or.inl (by decide))).1.mpr
      (by norm_num [boundInUnit, show pyUpper "C" = "C" from by decide, demo4,
        decodeS1, signedVal, MINIMUM_SETPOINT_REGISTER, MAXIMUM_SETPOINT_REGISTER,
        if_neg (show ¬(("C":String) = "F") from by decide)]),
   (c4_setpoint_range_validation (-60) "F" (some "cooler") demo4
      (Or.inr (by decide))).2.2.2.1
      (by norm_num [show pyUpper "F" = "F" from by decide])⟩
